import Mathlib

/-!
Verification of the `passport-browserid` authentication strategy
(`lib/passport-browserid/strategy.js`).

The strategy is single-threaded, event-driven JavaScript.  We embed it
shallowly: JavaScript values are `JSVal`, the host framework's outcome
callbacks (`success` / `fail` / `error`) are observed as a trace of
`Outcome`s, the pluggable HTTPS transport is a `TransportBehavior`
describing the events the transport delivers for the single outbound
request, and the application's resolution (verify) callback is a
function from the call it receives to a `VerifyBehavior` describing the
`done(err, user, info)` invocations it performs and whether it throws.
`JSON.parse` is a platform capability supplied by the environment as a
function from the accumulated response text to either a thrown value or
a parsed result restricted to the three fields the handler reads
(`status`, `reason`, `email`; an absent field reads as `undefined`).
-/

/-- A JavaScript value, restricted to the shapes this program handles.
`obj id` stands for an arbitrary object, identified by `id` (JS object
identity).  `jsError`, `badRequestError` and `verificationError` are the
error objects the strategy constructs. -/
inductive JSVal where
  | undefined
  | null
  | bool (b : Bool)
  | num (n : Int)
  | str (s : String)
  | obj (id : Nat)
  | jsError (message : String)
  | badRequestError (message : String)
  | verificationError (message : JSVal)
deriving DecidableEq, Repr

/-- JavaScript truthiness (`if (v)`): `undefined`, `null`, `false`, `0`
and `""` are falsy; every object (errors included) is truthy.
(`NaN` is not representable here; no claim involves it.) -/
def JSVal.truthy : JSVal → Bool
  | .undefined => false
  | .null => false
  | .bool b => b
  | .num n => n != 0
  | .str s => s != ""
  | _ => true

/-- JavaScript string coercion (`String(v)`), used for property names. -/
def JSVal.jsToString : JSVal → String
  | .undefined => "undefined"
  | .null => "null"
  | .bool b => if b then "true" else "false"
  | .num n => toString n
  | .str s => s
  | .obj _ => "[object Object]"
  | .jsError m => "Error: " ++ m
  | .badRequestError m => "Error: " ++ m
  | .verificationError m => "Error: " ++ m.jsToString

/-- The `message` property of the error objects. -/
def JSVal.message : JSVal → JSVal
  | .jsError m => .str m
  | .badRequestError m => .str m
  | .verificationError m => m
  | _ => .undefined

/-- Modelled from the spec: the repository's `BadRequestError` class
(`lib/passport-browserid/errors/badrequesterror.js` is required by
`strategy.js` but is not present in the sources); per the spec it is a
bad-request classification carrying the given message. -/
def BadRequestError (message : String) : JSVal := .badRequestError message

/-- Modelled from the spec: the repository's `VerificationError` class
(`lib/passport-browserid/errors/verificationerror.js` is required by
`strategy.js` but is not present in the sources); per the spec it is a
verification-failure error whose message equals the verifier response's
`reason` field. -/
def VerificationError (reason : JSVal) : JSVal := .verificationError reason

/-- One invocation of a host-framework outcome callback:
`self.success(user, info)`, `self.fail(info)` or `self.error(err)`. -/
inductive Outcome where
  | success (user info : JSVal)
  | fail (info : JSVal)
  | error (err : JSVal)
deriving DecidableEq, Repr

/-- An inbound request: `body` is the parsed request body (absent when
upstream middleware provided none), a string-keyed mapping of JS values.
`id` models JS object identity of the request. -/
structure Request where
  id : Nat := 0
  body : Option (List (String × JSVal)) := none
deriving DecidableEq, Repr

/-- `req.body[field]` (with `req.body` absent reading as `undefined`;
the code only reads the field after checking `req.body` is truthy). -/
def Request.bodyGet (req : Request) (field : String) : JSVal :=
  match req.body with
  | none => .undefined
  | some kvs => (kvs.lookup field).getD .undefined

/-- The guard `!req.body || !req.body[this._assertionField]`. -/
def missingAssertion (req : Request) (field : String) : Bool :=
  match req.body with
  | none => true
  | some kvs => !((kvs.lookup field).getD .undefined).truthy

/-- UTF-8 encoding of one character, as byte values. -/
def utf8Bytes (c : Char) : List Nat :=
  let n := c.toNat
  if n < 128 then [n]
  else if n < 2048 then [192 + n / 64, 128 + n % 64]
  else if n < 65536 then [224 + n / 4096, 128 + (n / 64) % 64, 128 + n % 64]
  else [240 + n / 262144, 128 + (n / 4096) % 64, 128 + (n / 64) % 64, 128 + n % 64]

/-- UTF-8 bytes of a string. -/
def strBytes (s : String) : List Nat := s.data.flatMap utf8Bytes

/-- Characters `querystring.escape` leaves unescaped (as in
`encodeURIComponent`): alphanumerics and `- . _ ~ ! * ( )` and the
apostrophe (byte 39). -/
def qsNoEscape (b : Nat) : Bool :=
  (65 ≤ b && b ≤ 90) || (97 ≤ b && b ≤ 122) || (48 ≤ b && b ≤ 57) ||
  b == 45 || b == 46 || b == 95 || b == 126 ||
  b == 33 || b == 39 || b == 40 || b == 41 || b == 42

/-- Upper-case hexadecimal digit. -/
def hexUpper (n : Nat) : Char :=
  if n < 10 then Char.ofNat (48 + n) else Char.ofNat (55 + n)

/-- `querystring.escape`: percent-encode every UTF-8 byte outside the
unescaped set, with upper-case hex. -/
def qsEscape (s : String) : String :=
  (strBytes s).foldl (fun acc b =>
    if qsNoEscape b then acc.push (Char.ofNat b)
    else ((acc.push (Char.ofNat 37)).push (hexUpper (b / 16))).push (hexUpper (b % 16))) ""

/-- `querystring.stringify`'s coercion of a primitive value: strings as
themselves, numbers and booleans via string coercion, everything else
as the empty string. -/
def qsPrimitive : JSVal → String
  | .str s => s
  | .num n => toString n
  | .bool b => if b then "true" else "false"
  | _ => ""

/-- One `key=value` pair of `querystring.stringify`. -/
def qsPair (k : String) (v : JSVal) : String :=
  qsEscape k ++ "=" ++ qsEscape (qsPrimitive v)

/-- `querystring.stringify({ assertion: assertion, audience: audience })`:
object-literal key order, pairs joined with `&`. -/
def verifyQuery (assertion audience : JSVal) : String :=
  qsPair "assertion" assertion ++ "&" ++ qsPair "audience" audience

/-- The outbound HTTPS request the strategy issues (options passed to
`this._https.request` plus the body written by `vreq.end(query, 'utf8')`). -/
structure OutboundCall where
  host : String
  path : String
  method : String
  headers : List (String × String)
  body : String
deriving DecidableEq, Repr

/-- The verifier response as far as the handler reads it: the `status`,
`reason` and `email` properties of the value `JSON.parse` returned (an
absent property reads as `undefined`). -/
structure VerifierResult where
  status : JSVal := .undefined
  reason : JSVal := .undefined
  email : JSVal := .undefined
deriving DecidableEq, Repr

/-- How the resolution (verify) callback is invoked: with the original
request first when `passReqToCallback` is set, without it otherwise
(the trailing `done` continuation is implicit). -/
inductive VerifyCall where
  | withReq (req : Request) (email : JSVal)
  | noReq (email : JSVal)
deriving DecidableEq, Repr

/-- Observable behaviour of one synchronous run of the resolution
callback: the successive `done(err, user, info)` invocations it makes,
then optionally a value it throws before returning. -/
structure VerifyBehavior where
  doneCalls : List (JSVal × JSVal × JSVal) := []
  thrown : Option JSVal := none

/-- The `done(err, user, info)` completion inside `verified`:
`err` truthy reports `error(err)`; otherwise a falsy `user` reports
`fail(info)`; otherwise `success(user, info)`. -/
def doneOutcome : JSVal × JSVal × JSVal → Outcome
  | (err, user, info) =>
    if err.truthy then .error err
    else if !user.truthy then .fail info
    else .success user info

/-- Outcome-callback trace of `verified(result)` for a callback with the
given behaviour: each `done` call reports through `doneOutcome`; a value
thrown by the callback propagates to the `try`/`catch` in the response
`end` handler, which reports `error` with it. -/
def verifiedTrace (vb : VerifyBehavior) : List Outcome :=
  vb.doneCalls.map doneOutcome ++
    (match vb.thrown with
     | none => []
     | some e => [.error e])

/-- Per-strategy state stored by the constructor. -/
structure Strategy where
  name : String
  verify : VerifyCall → VerifyBehavior
  passReqToCallback : JSVal
  audience : JSVal
  assertionField : JSVal

/-- The options object passed to the constructor; an omitted option
reads as `undefined`. (`transport` is modelled by the
`TransportBehavior` an attempt runs against.) -/
structure Options where
  audience : JSVal := .undefined
  assertionField : JSVal := .undefined
  passReqToCallback : JSVal := .undefined

/-- The `Strategy` constructor: throws when `options.audience` is falsy,
then when no verify callback is supplied; otherwise stores the verify
callback, `passReqToCallback`, `audience`, and
`assertionField || 'assertion'`. -/
def Strategy.make (options : Options) (verify : Option (VerifyCall → VerifyBehavior)) :
    Except JSVal Strategy :=
  if !options.audience.truthy then
    .error (.jsError "BrowserID authentication requires an audience option")
  else
    match verify with
    | none => .error (.jsError "BrowserID authentication strategy requires a verify function")
    | some v =>
      .ok { name := "browserid"
            verify := v
            passReqToCallback := options.passReqToCallback
            audience := options.audience
            assertionField :=
              if options.assertionField.truthy then options.assertionField
              else .str "assertion" }

/-- The events the transport delivers for the one outbound request:
either a response whose stream emits `data` chunks then `end`, or a
response whose stream emits `data` chunks then `error`, or an `error`
event on the request object itself (connection/TLS/network failure
before any response exists). -/
inductive TransportBehavior where
  | respondEnd (chunks : List String)
  | respondError (chunks : List String) (e : JSVal)
  | reqError (e : JSVal)

/-- `data += chunk` accumulation over the stream's `data` events. -/
def concatChunks (chunks : List String) : String := chunks.foldl (· ++ ·) ""

/-- The environment's `JSON.parse`: either throws a value or yields the
parsed result (restricted to the fields the handler reads). -/
structure Env where
  parseJSON : String → Except JSVal VerifierResult

/-- `verified` dispatch: `self._verify(req, result.email, done)` when
`self._passReqToCallback` is truthy, `self._verify(result.email, done)`
otherwise. -/
def mkVerifyCall (s : Strategy) (req : Request) (email : JSVal) : VerifyCall :=
  if s.passReqToCallback.truthy then .withReq req email else .noReq email

/-- The response `end` handler: `JSON.parse` the accumulated data inside
`try`; on `status === 'okay'` run `verified(result)`; otherwise report
`error(new VerificationError(result.reason))`; a value thrown anywhere in
the `try` block (parse failure, or the verify callback throwing) is
caught and reported as `error`.  Returns the verify-callback invocations
made and the outcome trace. -/
def onEnd (env : Env) (s : Strategy) (req : Request) (data : String) :
    List VerifyCall × List Outcome :=
  match env.parseJSON data with
  | .error e => ([], [.error e])
  | .ok result =>
    if result.status = .str "okay" then
      let c := mkVerifyCall s req result.email
      ([c], verifiedTrace (s.verify c))
    else
      ([], [.error (VerificationError result.reason)])

/-- Everything observable about one `authenticate(req)` attempt. -/
structure AttemptResult where
  httpCalls : List OutboundCall
  verifyCalls : List VerifyCall
  run : List Outcome ⊕ JSVal

/-- The trace of handled outcome invocations. -/
def handled (trace : List Outcome) : List Outcome ⊕ JSVal := Sum.inl trace

/-- An event emitted on an emitter with no listener for it: in Node this
becomes an uncaught exception (the process crashes); no outcome callback
runs. -/
def unhandledFault (e : JSVal) : List Outcome ⊕ JSVal := Sum.inr e

/-- `Strategy.prototype.authenticate`, run against the given transport
behaviour.  A missing/falsy assertion field reports
`fail(new BadRequestError('Missing assertion'))` and issues no outbound
call.  Otherwise one outbound call is issued; the handlers the code
installs are `data`/`end`/`error` on the response stream — nothing is
installed on the request object, so a request-level `error` event is an
unhandled fault. -/
def Strategy.authenticate (s : Strategy) (env : Env) (req : Request)
    (tb : TransportBehavior) : AttemptResult :=
  let field := s.assertionField.jsToString
  if missingAssertion req field then
    { httpCalls := [], verifyCalls := [],
      run := handled [.fail (BadRequestError "Missing assertion")] }
  else
    let assertion := req.bodyGet field
    let query := verifyQuery assertion s.audience
    let call : OutboundCall :=
      { host := "verifier.login.persona.org"
        path := "/verify"
        method := "POST"
        headers := [("Host", "verifier.login.persona.org"),
                    ("Content-Type", "application/x-www-form-urlencoded"),
                    ("Content-Length", toString query.length)]
        body := query }
    match tb with
    | .respondEnd chunks =>
      let r := onEnd env s req (concatChunks chunks)
      { httpCalls := [call], verifyCalls := r.1, run := handled r.2 }
    | .respondError _ e =>
      { httpCalls := [call], verifyCalls := [], run := handled [.error e] }
    | .reqError e =>
      { httpCalls := [call], verifyCalls := [], run := unhandledFault e }

/-! ## Concrete fixtures used by witnesses and counterexamples -/

/-- A strategy whose resolution callback always behaves as `vb`,
configured with audience `http://example.com` and defaults otherwise. -/
def tStrategy (vb : VerifyBehavior) : Strategy :=
  { name := "browserid"
    verify := fun _ => vb
    passReqToCallback := .undefined
    audience := .str "http://example.com"
    assertionField := .str "assertion" }

/-- A request carrying the assertion `"abc"`. -/
def tReq : Request := { id := 1, body := some [("assertion", .str "abc")] }

/-- An environment whose `JSON.parse` yields `r`. -/
def tEnv (r : VerifierResult) : Env := { parseJSON := fun _ => .ok r }

/-- A verifier response `{status: "okay", email: email}`. -/
def okayResult (email : JSVal) : VerifierResult :=
  { status := .str "okay", email := email }

/-! ## Claims -/

/-- C1: for every attempt whose verifier response parses as JSON with
`status` equal to `"okay"` and whose resolution callback completes with
`done(err, user, info)`: a truthy `err` reports `error(err)`; otherwise
a falsy `user` (explicit `false` included) reports `fail(info)`;
otherwise `success(user, info)` with exactly that user and info. -/
theorem C1_okay_done_dispatch (s : Strategy) (env : Env) (req : Request)
    (chunks : List String) (r : VerifierResult) (e u i : JSVal)
    (hreq : missingAssertion req s.assertionField.jsToString = false)
    (hparse : env.parseJSON (concatChunks chunks) = .ok r)
    (hok : r.status = .str "okay")
    (hverify : s.verify (mkVerifyCall s req r.email) = ⟨[(e, u, i)], none⟩) :
    (s.authenticate env req (.respondEnd chunks)).run =
      handled [if e.truthy then .error e
               else if !u.truthy then .fail i
               else .success u i] := by
  simp [Strategy.authenticate, hreq, onEnd, hparse, hok, hverify, verifiedTrace,
    doneOutcome]

/-- Witness for C1 at a concrete input: callback completes with
`done(null, {obj 1}, undefined)`; the outcome is `success`. -/
theorem C1_okay_done_dispatch_witness :
    ((tStrategy ⟨[(.null, .obj 1, .undefined)], none⟩).authenticate
        (tEnv (okayResult (.str "user@example.com"))) tReq (.respondEnd ["j"])).run =
      handled [.success (.obj 1) .undefined] :=
  C1_okay_done_dispatch _ _ _ ["j"] _ .null (.obj 1) .undefined rfl rfl rfl rfl

/-- C2: a request with no body, or whose body lacks the configured
assertion field, or whose assertion field is empty, reports
`fail(new BadRequestError('Missing assertion'))` and issues zero
outbound calls, whatever the transport would have done. -/
theorem C2_missing_assertion (s : Strategy) (env : Env) (req : Request)
    (tb : TransportBehavior)
    (h : req.body = none ∨ req.bodyGet s.assertionField.jsToString = .undefined ∨
         req.bodyGet s.assertionField.jsToString = .str "") :
    (s.authenticate env req tb).httpCalls = [] ∧
    (s.authenticate env req tb).run =
      handled [.fail (BadRequestError "Missing assertion")] := by
  have hm : missingAssertion req s.assertionField.jsToString = true := by
    cases hb : req.body with
    | none => simp [missingAssertion, hb]
    | some kvs =>
      rcases h with h | h | h
      · rw [hb] at h; cases h
      all_goals
        simp only [Request.bodyGet, hb] at h
        simp [missingAssertion, hb, h, JSVal.truthy]
  constructor <;> simp [Strategy.authenticate, hm]

/-- Witness for C2 at a concrete input: a body-less request. -/
theorem C2_missing_assertion_witness :
    ((tStrategy ⟨[], none⟩).authenticate (tEnv {}) { id := 0, body := none }
        (.respondEnd [])).httpCalls = [] ∧
    ((tStrategy ⟨[], none⟩).authenticate (tEnv {}) { id := 0, body := none }
        (.respondEnd [])).run =
      handled [.fail (BadRequestError "Missing assertion")] :=
  C2_missing_assertion _ _ _ _ (Or.inl rfl)

/-- C3: a verifier response that parses as JSON with any `status` other
than `"okay"` reports the `error` outcome (not `fail`), carrying a
verification-failure error whose message equals the response's
`reason`. -/
theorem C3_not_okay_error (s : Strategy) (env : Env) (req : Request)
    (chunks : List String) (r : VerifierResult)
    (hreq : missingAssertion req s.assertionField.jsToString = false)
    (hparse : env.parseJSON (concatChunks chunks) = .ok r)
    (hnot : r.status ≠ .str "okay") :
    (s.authenticate env req (.respondEnd chunks)).run =
      handled [.error (VerificationError r.reason)] ∧
    (VerificationError r.reason).message = r.reason := by
  refine ⟨?_, rfl⟩
  simp [Strategy.authenticate, hreq, onEnd, hparse, hnot]

/-- Witness for C3 at the spec's scenario:
`{"status":"failure","reason":"invalid signature"}`. -/
theorem C3_not_okay_error_witness :
    ((tStrategy ⟨[], none⟩).authenticate
        (tEnv { status := .str "failure", reason := .str "invalid signature" })
        tReq (.respondEnd ["j"])).run =
      handled [.error (VerificationError (.str "invalid signature"))] ∧
    (VerificationError (.str "invalid signature")).message =
      .str "invalid signature" :=
  C3_not_okay_error (tStrategy ⟨[], none⟩)
    (tEnv { status := .str "failure", reason := .str "invalid signature" })
    tReq ["j"] { status := .str "failure", reason := .str "invalid signature" }
    rfl rfl (by decide)

/-- Number of host-framework outcome invocations an attempt performed
(zero when the attempt died on an unhandled fault). -/
def invocationCount : List Outcome ⊕ JSVal → Nat
  | Sum.inl tr => tr.length
  | Sum.inr _ => 0

/-- Whether the attempt terminated in handled code (as opposed to an
event with no listener, which crashes the process). -/
def isHandled : List Outcome ⊕ JSVal → Bool
  | Sum.inl _ => true
  | Sum.inr _ => false

/-- Helper: when the resolution callback always calls `done` exactly
once and returns without throwing, the `end` handler produces exactly
one outcome. -/
theorem onEnd_trace_length (env : Env) (s : Strategy) (req : Request) (data : String)
    (hv : ∀ c, (s.verify c).doneCalls.length = 1 ∧ (s.verify c).thrown = none) :
    (onEnd env s req data).2.length = 1 := by
  unfold onEnd
  cases hp : env.parseJSON data with
  | error e => simp
  | ok r =>
    by_cases hok : r.status = .str "okay"
    · obtain ⟨h1, h2⟩ := hv (mkVerifyCall s req r.email)
      simp [hok, verifiedTrace, h2, h1]
    · simp [hok]

/-- C4: the claim says every network/TLS/connection error reaching the
verifier — including one raised on the outbound request itself, before
any response exists — is reported as the `error` outcome and never
surfaces as an unhandled fault.  The code installs `data`/`end`/`error`
listeners on the response stream only and installs no `error` listener
on the request object (`vreq`), so a request-level transport error is an
unhandled `error` event: zero outcome callbacks run and the fault
escapes (in Node, an `error` event with no listener crashes the
process).  A response-stream error, by contrast, is reported as the
claim says.  This theorem evaluates the code at the failing input. -/
theorem C4_request_error_unhandled :
    ((tStrategy ⟨[], none⟩).authenticate (tEnv {}) tReq
        (.reqError (.jsError "connect ECONNREFUSED"))).run =
      unhandledFault (.jsError "connect ECONNREFUSED") ∧
    invocationCount ((tStrategy ⟨[], none⟩).authenticate (tEnv {}) tReq
        (.reqError (.jsError "connect ECONNREFUSED"))).run = 0 ∧
    ((tStrategy ⟨[], none⟩).authenticate (tEnv {}) tReq
        (.respondError [] (.jsError "socket hang up"))).run =
      handled [.error (.jsError "socket hang up")] :=
  ⟨rfl, rfl, rfl⟩

/-- C5 counterexample: a resolution callback that calls
`done(null, user, info)` and then throws.  `done` reports
`success(user, info)`; the thrown value then propagates to the
`try`/`catch` in the `end` handler, which reports `error` as well — two
outcome invocations in one attempt, refuting "exactly once" on the very
execution path the claim names (a resolution callback that throws
synchronously during response handling). -/
theorem C5_two_invocations :
    ((tStrategy ⟨[(.null, .obj 1, .undefined)], some (.str "boom")⟩).authenticate
        (tEnv (okayResult (.str "user@example.com"))) tReq (.respondEnd ["j"])).run =
      handled [.success (.obj 1) .undefined, .error (.str "boom")] ∧
    invocationCount ((tStrategy ⟨[(.null, .obj 1, .undefined)], some (.str "boom")⟩).authenticate
        (tEnv (okayResult (.str "user@example.com"))) tReq (.respondEnd ["j"])).run = 2 :=
  ⟨rfl, rfl⟩

/-- C5 (amended): provided the transport delivers a response rather
than an error event on the request object, and the resolution callback
(whenever invoked) calls `done` exactly once and returns without
throwing, the attempt terminates handled with exactly one outcome
invocation.  (A callback that throws after calling `done` adds a second
`error` invocation, and a request-level transport error yields zero.) -/
theorem C5_exactly_once (s : Strategy) (env : Env) (req : Request)
    (tb : TransportBehavior)
    (htb : ∀ e, tb ≠ TransportBehavior.reqError e)
    (hv : ∀ c, (s.verify c).doneCalls.length = 1 ∧ (s.verify c).thrown = none) :
    isHandled (s.authenticate env req tb).run = true ∧
    invocationCount (s.authenticate env req tb).run = 1 := by
  by_cases hm : missingAssertion req s.assertionField.jsToString
  · constructor <;> simp [Strategy.authenticate, hm, isHandled, invocationCount, handled]
  · cases tb with
    | respondEnd chunks =>
      have hl := onEnd_trace_length env s req (concatChunks chunks) hv
      constructor <;>
        simp [Strategy.authenticate, hm, isHandled, invocationCount, handled, hl]
    | respondError chunks e =>
      constructor <;> simp [Strategy.authenticate, hm, isHandled, invocationCount, handled]
    | reqError e => exact absurd rfl (htb e)

/-- Witness for C5 (amended) at a concrete input: a well-behaved
callback on a `status: "okay"` response. -/
theorem C5_exactly_once_witness :
    isHandled ((tStrategy ⟨[(.null, .obj 1, .undefined)], none⟩).authenticate
        (tEnv (okayResult (.str "user@example.com"))) tReq (.respondEnd ["j"])).run = true ∧
    invocationCount ((tStrategy ⟨[(.null, .obj 1, .undefined)], none⟩).authenticate
        (tEnv (okayResult (.str "user@example.com"))) tReq (.respondEnd ["j"])).run = 1 :=
  C5_exactly_once (tStrategy ⟨[(.null, .obj 1, .undefined)], none⟩)
    (tEnv (okayResult (.str "user@example.com"))) tReq (.respondEnd ["j"])
    (fun e h => by cases h) (fun c => ⟨rfl, rfl⟩)

/-- C6: with request body `{assertion: "abc"}` and configured audience
`"http://example.com"`, the body of the outbound verification call is
exactly `assertion=abc&audience=http%3A%2F%2Fexample.com` (keys in the
order assertion then audience, values percent-encoded). -/
theorem C6_outbound_body :
    (((tStrategy ⟨[], none⟩).authenticate (tEnv {}) tReq
        (.respondEnd [])).httpCalls.map OutboundCall.body) =
      ["assertion=abc&audience=http%3A%2F%2Fexample.com"] := by
  decide

/-- `tStrategy` with `passReqToCallback: true`. -/
def tStrategyReq (vb : VerifyBehavior) : Strategy :=
  { tStrategy vb with passReqToCallback := .bool true }

/-- C7: on a `status: "okay"` response, the resolution callback is
invoked with the original request as first argument exactly when the
`passReqToCallback` option is truthy (`true`); when it is falsy
(`false` or absent, hence `undefined`), the callback's first argument
is the email and the request is not passed. -/
theorem C7_passReqToCallback (s : Strategy) (env : Env) (req : Request)
    (chunks : List String) (r : VerifierResult)
    (hreq : missingAssertion req s.assertionField.jsToString = false)
    (hparse : env.parseJSON (concatChunks chunks) = .ok r)
    (hok : r.status = .str "okay") :
    (s.authenticate env req (.respondEnd chunks)).verifyCalls =
      [if s.passReqToCallback.truthy then .withReq req r.email
       else .noReq r.email] := by
  simp [Strategy.authenticate, hreq, onEnd, hparse, hok, mkVerifyCall]

/-- Witness for C7 at concrete inputs, in both configurations. -/
theorem C7_passReqToCallback_witness :
    ((tStrategyReq ⟨[], none⟩).authenticate (tEnv (okayResult (.str "u@x")))
        tReq (.respondEnd ["j"])).verifyCalls = [.withReq tReq (.str "u@x")] ∧
    ((tStrategy ⟨[], none⟩).authenticate (tEnv (okayResult (.str "u@x")))
        tReq (.respondEnd ["j"])).verifyCalls = [.noReq (.str "u@x")] :=
  ⟨C7_passReqToCallback (tStrategyReq ⟨[], none⟩) (tEnv (okayResult (.str "u@x")))
      tReq ["j"] (okayResult (.str "u@x")) rfl rfl rfl,
   C7_passReqToCallback (tStrategy ⟨[], none⟩) (tEnv (okayResult (.str "u@x")))
      tReq ["j"] (okayResult (.str "u@x")) rfl rfl rfl⟩

/-- C8: construction throws whenever `audience` is absent or empty;
throws whenever no verify callback is supplied; and when a truthy
audience and a callback are both supplied it succeeds and stores them. -/
theorem C8_construction :
    (∀ (o : Options) (v : Option (VerifyCall → VerifyBehavior)),
      o.audience = .undefined ∨ o.audience = .str "" →
        ∃ m, Strategy.make o v = .error m) ∧
    (∀ o : Options, ∃ m, Strategy.make o none = .error m) ∧
    (∀ (o : Options) (v : VerifyCall → VerifyBehavior),
      o.audience.truthy = true →
        ∃ s, Strategy.make o (some v) = .ok s ∧
          s.audience = o.audience ∧ s.verify = v) := by
  refine ⟨fun o v h => ?_, fun o => ?_, fun o v h => ?_⟩
  · have ha : o.audience.truthy = false := by
      rcases h with h | h <;> simp [h, JSVal.truthy]
    exact ⟨.jsError "BrowserID authentication requires an audience option",
      by simp [Strategy.make, ha]⟩
  · by_cases ha : o.audience.truthy
    · exact ⟨.jsError "BrowserID authentication strategy requires a verify function",
        by simp [Strategy.make, ha]⟩
    · exact ⟨.jsError "BrowserID authentication requires an audience option",
        by simp [Strategy.make, ha]⟩
  · refine ⟨Strategy.mk "browserid" v o.passReqToCallback o.audience
        (if o.assertionField.truthy then o.assertionField else .str "assertion"),
      by simp [Strategy.make, h], rfl, rfl⟩

/-- Witness for C8 at concrete inputs: construction with no audience
fails, with no callback fails, and with both succeeds storing them. -/
theorem C8_construction_witness :
    (∃ m, Strategy.make { audience := .undefined }
        (some (fun _ => ⟨[], none⟩)) = .error m) ∧
    (∃ m, Strategy.make { audience := .str "http://example.com" } none = .error m) ∧
    (∃ s, Strategy.make { audience := .str "http://example.com" }
        (some (fun _ => ⟨[], none⟩)) = .ok s ∧
      s.audience = ({ audience := .str "http://example.com" } : Options).audience ∧
      s.verify = fun _ => ⟨[], none⟩) :=
  ⟨C8_construction.1 { audience := .undefined } (some (fun _ => ⟨[], none⟩)) (Or.inl rfl),
   C8_construction.2.1 { audience := .str "http://example.com" },
   C8_construction.2.2 { audience := .str "http://example.com" } (fun _ => ⟨[], none⟩) rfl⟩

/-- C9: a resolution callback that throws synchronously is caught by
the `try`/`catch` of the response `end` handler and reported through
the `error` outcome callback with the thrown value, after whatever
`done` invocations it made first — it never propagates as an unhandled
exception. -/
theorem C9_callback_throw_caught (s : Strategy) (env : Env) (req : Request)
    (chunks : List String) (r : VerifierResult) (exc : JSVal)
    (hreq : missingAssertion req s.assertionField.jsToString = false)
    (hparse : env.parseJSON (concatChunks chunks) = .ok r)
    (hok : r.status = .str "okay")
    (hthrow : (s.verify (mkVerifyCall s req r.email)).thrown = some exc) :
    (s.authenticate env req (.respondEnd chunks)).run =
      handled ((s.verify (mkVerifyCall s req r.email)).doneCalls.map doneOutcome
        ++ [.error exc]) := by
  simp [Strategy.authenticate, hreq, onEnd, hparse, hok, verifiedTrace, hthrow]

/-- Witness for C9 at a concrete input: a callback that throws before
calling `done`; the attempt reports exactly `error` with the thrown
value. -/
theorem C9_callback_throw_caught_witness :
    ((tStrategy ⟨[], some (.str "boom")⟩).authenticate
        (tEnv (okayResult (.str "u@x"))) tReq (.respondEnd ["j"])).run =
      handled [.error (.str "boom")] :=
  C9_callback_throw_caught (tStrategy ⟨[], some (.str "boom")⟩)
    (tEnv (okayResult (.str "u@x"))) tReq ["j"] (okayResult (.str "u@x"))
    (.str "boom") rfl rfl rfl rfl

/-- C10: a response that parses as JSON with `status: "okay"` but no
`email` field is not treated as an error at that point: the resolution
callback is still invoked, with `undefined` as the email argument, and
the attempt's outcome is whatever the callback's behaviour yields. -/
theorem C10_okay_without_email (s : Strategy) (env : Env) (req : Request)
    (chunks : List String) (r : VerifierResult)
    (hreq : missingAssertion req s.assertionField.jsToString = false)
    (hparse : env.parseJSON (concatChunks chunks) = .ok r)
    (hok : r.status = .str "okay")
    (hmail : r.email = .undefined) :
    (s.authenticate env req (.respondEnd chunks)).verifyCalls =
      [mkVerifyCall s req .undefined] ∧
    (s.authenticate env req (.respondEnd chunks)).run =
      handled (verifiedTrace (s.verify (mkVerifyCall s req .undefined))) := by
  constructor <;>
    simp [Strategy.authenticate, hreq, onEnd, hparse, hok, hmail]

/-- Witness for C10 at a concrete input: `{"status":"okay"}` with no
email; the callback runs with `undefined` email and its `done(null,
user)` yields `success`. -/
theorem C10_okay_without_email_witness :
    ((tStrategy ⟨[(.null, .obj 1, .undefined)], none⟩).authenticate
        (tEnv { status := .str "okay" }) tReq (.respondEnd ["j"])).verifyCalls =
      [mkVerifyCall (tStrategy ⟨[(.null, .obj 1, .undefined)], none⟩) tReq .undefined] ∧
    ((tStrategy ⟨[(.null, .obj 1, .undefined)], none⟩).authenticate
        (tEnv { status := .str "okay" }) tReq (.respondEnd ["j"])).run =
      handled (verifiedTrace ((tStrategy ⟨[(.null, .obj 1, .undefined)], none⟩).verify
        (mkVerifyCall (tStrategy ⟨[(.null, .obj 1, .undefined)], none⟩) tReq .undefined))) :=
  C10_okay_without_email (tStrategy ⟨[(.null, .obj 1, .undefined)], none⟩)
    (tEnv { status := .str "okay" }) tReq ["j"] { status := .str "okay" }
    rfl rfl rfl rfl
